import Mathlib

/-!
Verification development for the Vulkan iOS example framework.

The Rust sources are shallowly embedded: the scalar type f32 is modelled by
the rationals, and the square-root and sine/cosine primitives of f32 are
modelled by opaque function parameters, so every algebraic identity proved
here is exact.  Panicking code paths are modelled by the none case of
Option, and fallible constructors return Except.  Recursion over the
node graph of a model, which in Rust runs on the call stack, is modelled
with an explicit fuel parameter: a run that exhausts every fuel bound
corresponds to a non-terminating (stack-overflowing) traversal.
-/

namespace VkFramework

/-- 3-dimensional vector, from math/vec3.rs (f32 fields modelled by Rat). -/
structure Vec3 where
  x : Rat
  y : Rat
  z : Rat
deriving DecidableEq, Repr

namespace Vec3

/-- Vec3::new_vector from math/vec3.rs. -/
def new_vector (x y z : Rat) : Vec3 := ⟨x, y, z⟩

/-- Vec3::ZERO from math/vec3.rs. -/
def ZERO : Vec3 := ⟨0, 0, 0⟩

/-- Vec3::add_vector3 from math/vec3.rs (the Add impl). -/
def add_vector3 (a b : Vec3) : Vec3 := ⟨a.x + b.x, a.y + b.y, a.z + b.z⟩

/-- Vec3::sub_vector3 from math/vec3.rs (the Sub impl). -/
def sub_vector3 (a b : Vec3) : Vec3 := ⟨a.x - b.x, a.y - b.y, a.z - b.z⟩

/-- Vec3::mul_scalar from math/vec3.rs. -/
def mul_scalar (a : Vec3) (s : Rat) : Vec3 := ⟨a.x * s, a.y * s, a.z * s⟩

/-- Vec3::div_scalar from math/vec3.rs. -/
def div_scalar (a : Vec3) (s : Rat) : Vec3 := ⟨a.x / s, a.y / s, a.z / s⟩

/-- Vec3::dot from math/vec3.rs. -/
def dot (a b : Vec3) : Rat := a.x * b.x + a.y * b.y + a.z * b.z

/-- Vec3::cross from math/vec3.rs. -/
def cross (a b : Vec3) : Vec3 :=
  ⟨a.y * b.z - a.z * b.y, a.z * b.x - a.x * b.z, a.x * b.y - a.y * b.x⟩

/-- Vec3::length_squared from math/vec3.rs. -/
def length_squared (a : Vec3) : Rat := a.x * a.x + a.y * a.y + a.z * a.z

/-- Vec3::length from math/vec3.rs; the f32 square root is the parameter sq
applied to the squared length. -/
def length (sq : Rat → Rat) (a : Vec3) : Rat := sq a.length_squared

/-- Vec3::normalize from math/vec3.rs: division by the length, with the f32
square root modelled by the parameter sq. -/
def normalize (sq : Rat → Rat) (a : Vec3) : Vec3 := a.div_scalar (length sq a)

end Vec3

/-- Quaternion, from math/quat.rs (f32 fields modelled by Rat). -/
structure Quat where
  x : Rat
  y : Rat
  z : Rat
  w : Rat
deriving DecidableEq, Repr

namespace Quat

/-- Quat::length_squared from math/quat.rs. -/
def length_squared (q : Quat) : Rat :=
  q.x * q.x + q.y * q.y + q.z * q.z + q.w * q.w

/-- Quat::div_scalar from math/quat.rs. -/
def div_scalar (q : Quat) (s : Rat) : Quat := ⟨q.x / s, q.y / s, q.z / s, q.w / s⟩

/-- Quat::length from math/quat.rs, square root abstracted as sq. -/
def length (sq : Rat → Rat) (q : Quat) : Rat := sq q.length_squared

/-- Quat::normalize from math/quat.rs. -/
def normalize (sq : Rat → Rat) (q : Quat) : Quat := q.div_scalar (length sq q)

/-- Quat::from_angle_axis from math/quat.rs; the f32 sin_cos of the half
angle is abstracted as the parameter sincos. -/
def from_angle_axis (sincos : Rat → Rat × Rat) (angle_radian : Rat) (axis : Vec3) : Quat :=
  let sc := sincos (angle_radian * (1/2))
  ⟨axis.x * sc.1, axis.y * sc.1, axis.z * sc.1, sc.2⟩

end Quat

/-- 3by3 matrix, from math/mat3.rs. -/
structure Mat3x3 where
  r1c1 : Rat
  r1c2 : Rat
  r1c3 : Rat
  r2c1 : Rat
  r2c2 : Rat
  r2c3 : Rat
  r3c1 : Rat
  r3c2 : Rat
  r3c3 : Rat
deriving DecidableEq, Repr

namespace Mat3x3

/-- Mat3x3::from_quat from math/mat3.rs. -/
def from_quat (q : Quat) : Mat3x3 where
  r1c1 := 1 - 2 * q.y * q.y - 2 * q.z * q.z
  r1c2 := 2 * q.x * q.y + 2 * q.z * q.w
  r1c3 := 2 * q.x * q.z - 2 * q.y * q.w
  r2c1 := 2 * q.x * q.y - 2 * q.z * q.w
  r2c2 := 1 - 2 * q.x * q.x - 2 * q.z * q.z
  r2c3 := 2 * q.y * q.z + 2 * q.x * q.w
  r3c1 := 2 * q.x * q.z + 2 * q.y * q.w
  r3c2 := 2 * q.y * q.z - 2 * q.x * q.w
  r3c3 := 1 - 2 * q.x * q.x - 2 * q.y * q.y

end Mat3x3

/-- Quat::into_matrix3x3 from math/quat.rs. -/
def Quat.into_matrix3x3 (q : Quat) : Mat3x3 := Mat3x3.from_quat q

/-- 4by4 matrix (row major, pre-multiplication), from math/mat4.rs. -/
structure Mat4x4 where
  r1c1 : Rat
  r1c2 : Rat
  r1c3 : Rat
  r1c4 : Rat
  r2c1 : Rat
  r2c2 : Rat
  r2c3 : Rat
  r2c4 : Rat
  r3c1 : Rat
  r3c2 : Rat
  r3c3 : Rat
  r3c4 : Rat
  r4c1 : Rat
  r4c2 : Rat
  r4c3 : Rat
  r4c4 : Rat
deriving DecidableEq, Repr

namespace Mat4x4

/-- Mat4x4::IDENTITY from math/mat4.rs. -/
def IDENTITY : Mat4x4 :=
  ⟨1, 0, 0, 0, 0, 1, 0, 0, 0, 0, 1, 0, 0, 0, 0, 1⟩

/-- Mat4x4::mul_matrix4x4 from math/mat4.rs (the Mul impl used by
ModelNode::update_transform and rotate_from_quaternion). -/
def mul_matrix4x4 (a b : Mat4x4) : Mat4x4 where
  r1c1 := a.r1c1 * b.r1c1 + a.r1c2 * b.r2c1 + a.r1c3 * b.r3c1 + a.r1c4 * b.r4c1
  r2c1 := a.r2c1 * b.r1c1 + a.r2c2 * b.r2c1 + a.r2c3 * b.r3c1 + a.r2c4 * b.r4c1
  r3c1 := a.r3c1 * b.r1c1 + a.r3c2 * b.r2c1 + a.r3c3 * b.r3c1 + a.r3c4 * b.r4c1
  r4c1 := a.r4c1 * b.r1c1 + a.r4c2 * b.r2c1 + a.r4c3 * b.r3c1 + a.r4c4 * b.r4c1
  r1c2 := a.r1c1 * b.r1c2 + a.r1c2 * b.r2c2 + a.r1c3 * b.r3c2 + a.r1c4 * b.r4c2
  r2c2 := a.r2c1 * b.r1c2 + a.r2c2 * b.r2c2 + a.r2c3 * b.r3c2 + a.r2c4 * b.r4c2
  r3c2 := a.r3c1 * b.r1c2 + a.r3c2 * b.r2c2 + a.r3c3 * b.r3c2 + a.r3c4 * b.r4c2
  r4c2 := a.r4c1 * b.r1c2 + a.r4c2 * b.r2c2 + a.r4c3 * b.r3c2 + a.r4c4 * b.r4c2
  r1c3 := a.r1c1 * b.r1c3 + a.r1c2 * b.r2c3 + a.r1c3 * b.r3c3 + a.r1c4 * b.r4c3
  r2c3 := a.r2c1 * b.r1c3 + a.r2c2 * b.r2c3 + a.r2c3 * b.r3c3 + a.r2c4 * b.r4c3
  r3c3 := a.r3c1 * b.r1c3 + a.r3c2 * b.r2c3 + a.r3c3 * b.r3c3 + a.r3c4 * b.r4c3
  r4c3 := a.r4c1 * b.r1c3 + a.r4c2 * b.r2c3 + a.r4c3 * b.r3c3 + a.r4c4 * b.r4c3
  r1c4 := a.r1c1 * b.r1c4 + a.r1c2 * b.r2c4 + a.r1c3 * b.r3c4 + a.r1c4 * b.r4c4
  r2c4 := a.r2c1 * b.r1c4 + a.r2c2 * b.r2c4 + a.r2c3 * b.r3c4 + a.r2c4 * b.r4c4
  r3c4 := a.r3c1 * b.r1c4 + a.r3c2 * b.r2c4 + a.r3c3 * b.r3c4 + a.r3c4 * b.r4c4
  r4c4 := a.r4c1 * b.r1c4 + a.r4c2 * b.r2c4 + a.r4c3 * b.r3c4 + a.r4c4 * b.r4c4

end Mat4x4

/-- Quat::from_matrix4x4 from math/quat.rs, with the f32 square root
abstracted as sq (used through Mat4x4::into_quat by Model::get_quaternion). -/
def Quat.from_matrix4x4 (sq : Rat → Rat) (m : Mat4x4) : Quat :=
  if m.r3c3 ≤ 0 then
    if m.r2c2 - m.r1c1 ≤ 0 then
      let t := 1 + m.r1c1 - m.r2c2 - m.r3c3
      let inv := (1/2) / sq t
      ⟨t * inv, (m.r1c2 + m.r2c1) * inv, (m.r1c3 + m.r3c1) * inv, (m.r2c3 - m.r3c2) * inv⟩
    else
      let t := 1 - m.r1c1 + m.r2c2 - m.r3c3
      let inv := (1/2) / sq t
      ⟨(m.r1c2 + m.r2c1) * inv, t * inv, (m.r2c3 + m.r3c2) * inv, (m.r3c1 - m.r1c3) * inv⟩
  else
    if m.r1c1 + m.r2c2 ≤ 0 then
      let t := 1 - m.r1c1 - m.r2c2 + m.r3c3
      let inv := (1/2) / sq t
      ⟨(m.r1c3 + m.r3c1) * inv, (m.r2c3 + m.r3c2) * inv, t * inv, (m.r1c2 - m.r2c1) * inv⟩
    else
      let t := 1 + m.r1c1 + m.r2c2 + m.r3c3
      let inv := (1/2) / sq t
      ⟨(m.r2c3 - m.r3c2) * inv, (m.r3c1 - m.r1c3) * inv, (m.r1c2 - m.r2c1) * inv, t * inv⟩

/-- Mat4x4::into_quat from math/mat4.rs. -/
def Mat4x4.into_quat (sq : Rat → Rat) (m : Mat4x4) : Quat :=
  Quat.from_matrix4x4 sq m

/-- Node id type; the source is generic (String by default) and the
embedding instantiates it with Nat, which is decidable. -/
abbrev NodeID := Nat

/-- ModelNode from world/model.rs.  The mesh and shader handles are opaque
reference-counted render resources and carry no data relevant to any claim,
so they are modelled as Option Unit. -/
structure ModelNode where
  id : NodeID
  transform : Mat4x4
  world_matrix : Mat4x4
  mesh : Option Unit
  shader : Option Unit
  parent : Option NodeID
  sibling : Option NodeID
  child : Option NodeID
deriving DecidableEq, Repr

namespace ModelNode

/-- ModelNode::get_position from world/model.rs. -/
def get_position (n : ModelNode) : Vec3 :=
  Vec3.new_vector n.transform.r4c1 n.transform.r4c2 n.transform.r4c3

/-- ModelNode::get_quaternion from world/model.rs. -/
def get_quaternion (sq : Rat → Rat) (n : ModelNode) : Quat :=
  n.transform.into_quat sq

/-- ModelNode::get_right_vector from world/model.rs. -/
def get_right_vector (n : ModelNode) : Vec3 :=
  Vec3.new_vector n.transform.r1c1 n.transform.r1c2 n.transform.r1c3

/-- ModelNode::get_up_vector from world/model.rs. -/
def get_up_vector (n : ModelNode) : Vec3 :=
  Vec3.new_vector n.transform.r2c1 n.transform.r2c2 n.transform.r2c3

/-- ModelNode::get_look_vector from world/model.rs. -/
def get_look_vector (n : ModelNode) : Vec3 :=
  Vec3.new_vector n.transform.r3c1 n.transform.r3c2 n.transform.r3c3

/-- ModelNode::set_position from world/model.rs. -/
def set_position (n : ModelNode) (position : Vec3) : ModelNode :=
  { n with transform :=
    { n.transform with r4c1 := position.x, r4c2 := position.y, r4c3 := position.z } }

/-- ModelNode::set_quaternion from world/model.rs; the f32 square root used
by Quat::normalize is abstracted as sq. -/
def set_quaternion (sq : Rat → Rat) (n : ModelNode) (quaternion : Quat) : ModelNode :=
  let m := (quaternion.normalize sq).into_matrix3x3
  { n with transform :=
    { n.transform with
      r1c1 := m.r1c1, r1c2 := m.r1c2, r1c3 := m.r1c3,
      r2c1 := m.r2c1, r2c2 := m.r2c2, r2c3 := m.r2c3,
      r3c1 := m.r3c1, r3c2 := m.r3c2, r3c3 := m.r3c3 } }

/-- ModelNode::set_look_at_point from world/model.rs. -/
def set_look_at_point (sq : Rat → Rat) (n : ModelNode) (point : Vec3) : ModelNode :=
  let up := (n.get_up_vector).normalize sq
  let look := (point.sub_vector3 n.get_position).normalize sq
  let right := (up.cross look).normalize sq
  let up2 := (look.cross right).normalize sq
  { n with transform :=
    { n.transform with
      r1c1 := right.x, r1c2 := right.y, r1c3 := right.z,
      r2c1 := up2.x, r2c2 := up2.y, r2c3 := up2.z,
      r3c1 := look.x, r3c2 := look.y, r3c3 := look.z } }

/-- ModelNode::translate_world from world/model.rs. -/
def translate_world (n : ModelNode) (distance : Vec3) : ModelNode :=
  { n with transform :=
    { n.transform with
      r4c1 := n.transform.r4c1 + distance.x,
      r4c2 := n.transform.r4c2 + distance.y,
      r4c3 := n.transform.r4c3 + distance.z } }

/-- ModelNode::translate_local from world/model.rs. -/
def translate_local (sq : Rat → Rat) (n : ModelNode) (distance : Vec3) : ModelNode :=
  let x := (n.get_right_vector.normalize sq).mul_scalar distance.x
  let y := (n.get_up_vector.normalize sq).mul_scalar distance.y
  let z := (n.get_look_vector.normalize sq).mul_scalar distance.z
  n.translate_world ((x.add_vector3 y).add_vector3 z)

/-- ModelNode::rotate_from_quaternion from world/model.rs: the transform is
pre-multiplied by the rotation matrix of the normalized quaternion.  The
source builds the rotation matrix with Quat::into_matrix4x4, whose 3x3
corner agrees with Mat3x3::from_quat and whose last row and column are the
identity ones (Mat4x4::from_quat in math/mat4.rs). -/
def rotate_from_quaternion (sq : Rat → Rat) (n : ModelNode) (quaternion : Quat) : ModelNode :=
  let q := quaternion.normalize sq
  let rotation_matrix : Mat4x4 :=
    ⟨1 - 2 * q.y * q.y - 2 * q.z * q.z, 2 * q.x * q.y + 2 * q.z * q.w,
      2 * q.x * q.z - 2 * q.y * q.w, 0,
      2 * q.x * q.y - 2 * q.z * q.w, 1 - 2 * q.x * q.x - 2 * q.z * q.z,
      2 * q.y * q.z + 2 * q.x * q.w, 0,
      2 * q.x * q.z + 2 * q.y * q.w, 2 * q.y * q.z - 2 * q.x * q.w,
      1 - 2 * q.x * q.x - 2 * q.y * q.y, 0,
      0, 0, 0, 1⟩
  { n with transform := rotation_matrix.mul_matrix4x4 n.transform }

/-- ModelNode::rotate_from_angle_axis from world/model.rs. -/
def rotate_from_angle_axis (sincos : Rat → Rat × Rat) (sq : Rat → Rat)
    (n : ModelNode) (angle_radian : Rat) (axis : Vec3) : ModelNode :=
  n.rotate_from_quaternion sq (Quat.from_angle_axis sincos angle_radian (axis.normalize sq))

/-- ModelNode::update_transform from world/model.rs: when a parent matrix is
supplied the world matrix becomes transform * parent_matrix, otherwise it is
left unchanged; the updated node is returned together with the triple
(world_matrix, sibling, child) the source returns. -/
def update_transform (n : ModelNode) (parent_matrix : Option Mat4x4) :
    ModelNode × Mat4x4 × Option NodeID × Option NodeID :=
  let n2 :=
    match parent_matrix with
    | some pm => { n with world_matrix := n.transform.mul_matrix4x4 pm }
    | none => n
  (n2, n2.world_matrix, n2.sibling, n2.child)

end ModelNode

/-- Lookup in the association-list model of HashMap: the source builds the
map by inserting bindings in order, and a later insertion of the same key
overwrites an earlier one, so lookup takes the LAST binding of the key. -/
def mapLookup {α : Type} (m : List (Nat × α)) (k : Nat) : Option α :=
  m.foldl (fun acc kv => if kv.1 = k then some kv.2 else acc) none

/-- Model from world/model.rs. -/
structure Model where
  name : String
  root_id : NodeID
  nodes : List ModelNode
  id_index_map : List (NodeID × Nat)
deriving DecidableEq, Repr

/-- Replace the node at an index of the node list, leaving the list
unchanged when the index is out of range (used to embed writes through
Model::mut_node). -/
def modifyNodeAt : List ModelNode → Nat → (ModelNode → ModelNode) → List ModelNode
  | [], _, _ => []
  | n :: t, 0, f => f n :: t
  | n :: t, Nat.succ i, f => n :: modifyNodeAt t i f

namespace Model

/-- Model::from_nodes from world/model.rs: collect the nodes, build the
id-to-index map from their enumeration, and fail exactly when the root id is
not a key of that map. -/
def from_nodes (name : String) (root_id : NodeID) (nodes : List ModelNode) :
    Except String Model :=
  let id_index_map := nodes.enum.map (fun p => (p.2.id, p.1))
  if (mapLookup id_index_map root_id).isNone then
    Except.error "Invalid root ID."
  else
    Except.ok { name := name, root_id := root_id, nodes := nodes, id_index_map := id_index_map }

/-- Model::get_index from world/model.rs; the panic branch for an
unregistered id is the none case. -/
def get_index (m : Model) (id : NodeID) : Option Nat :=
  mapLookup m.id_index_map id

/-- Model::ref_node from world/model.rs; the panic branch for an
out-of-range index is the none case. -/
def ref_node (m : Model) (index : Nat) : Option ModelNode :=
  m.nodes.get? index

/-- Model::get_position from world/model.rs. -/
def get_position (m : Model) (id : NodeID) : Option Vec3 :=
  (m.get_index id).bind (fun i => (m.ref_node i).map ModelNode.get_position)

/-- Model::get_quaternion from world/model.rs. -/
def get_quaternion (sq : Rat → Rat) (m : Model) (id : NodeID) : Option Quat :=
  (m.get_index id).bind (fun i => (m.ref_node i).map (ModelNode.get_quaternion sq))

/-- Model::get_local_right_vector from world/model.rs. -/
def get_local_right_vector (m : Model) (id : NodeID) : Option Vec3 :=
  (m.get_index id).bind (fun i => (m.ref_node i).map ModelNode.get_right_vector)

/-- Model::get_local_up_vector from world/model.rs. -/
def get_local_up_vector (m : Model) (id : NodeID) : Option Vec3 :=
  (m.get_index id).bind (fun i => (m.ref_node i).map ModelNode.get_up_vector)

/-- Model::get_local_look_vector from world/model.rs. -/
def get_local_look_vector (m : Model) (id : NodeID) : Option Vec3 :=
  (m.get_index id).bind (fun i => (m.ref_node i).map ModelNode.get_look_vector)

/-- Model::update_transform from world/model.rs: update the node named by
id, then recurse into its sibling with the same parent matrix and into its
child with the freshly returned world matrix.  The call stack of the Rust
recursion is modelled by the fuel argument; none models either a panic on
an unregistered id or fuel exhaustion. -/
def update_transform (m : Model) (id : NodeID) (parent_matrix : Option Mat4x4) :
    Nat → Option Model
  | 0 => none
  | fuel + 1 =>
    match m.get_index id with
    | none => none
    | some index =>
      match m.nodes.get? index with
      | none => none
      | some node =>
        let r := node.update_transform parent_matrix
        let m1 : Model := { m with nodes := modifyNodeAt m.nodes index (fun _ => r.1) }
        let afterSibling : Option Model :=
          match r.2.2.1 with
          | some s => update_transform m1 s parent_matrix fuel
          | none => some m1
        afterSibling.bind (fun m2 =>
          match r.2.2.2 with
          | some c => update_transform m2 c (some r.2.1) fuel
          | none => some m2)

/-- Model::set_position from world/model.rs: mutate the node, then call
update_transform with id and no parent matrix. -/
def set_position (m : Model) (id : NodeID) (position : Vec3) (fuel : Nat) : Option Model :=
  (m.get_index id).bind (fun i =>
    (m.nodes.get? i).bind (fun node =>
      update_transform
        { m with nodes := modifyNodeAt m.nodes i (fun _ => node.set_position position) }
        id none fuel))

/-- Model::set_quaternion from world/model.rs. -/
def set_quaternion (sq : Rat → Rat) (m : Model) (id : NodeID) (quaternion : Quat)
    (fuel : Nat) : Option Model :=
  (m.get_index id).bind (fun i =>
    (m.nodes.get? i).bind (fun node =>
      update_transform
        { m with nodes := modifyNodeAt m.nodes i (fun _ => node.set_quaternion sq quaternion) }
        id none fuel))

/-- Model::set_look_at_point from world/model.rs. -/
def set_look_at_point (sq : Rat → Rat) (m : Model) (id : NodeID) (point : Vec3)
    (fuel : Nat) : Option Model :=
  (m.get_index id).bind (fun i =>
    (m.nodes.get? i).bind (fun node =>
      update_transform
        { m with nodes := modifyNodeAt m.nodes i (fun _ => node.set_look_at_point sq point) }
        id none fuel))

/-- Model::translate_local from world/model.rs. -/
def translate_local (sq : Rat → Rat) (m : Model) (id : NodeID) (distance : Vec3)
    (fuel : Nat) : Option Model :=
  (m.get_index id).bind (fun i =>
    (m.nodes.get? i).bind (fun node =>
      update_transform
        { m with nodes := modifyNodeAt m.nodes i (fun _ => node.translate_local sq distance) }
        id none fuel))

/-- Model::translate_world from world/model.rs. -/
def translate_world (m : Model) (id : NodeID) (distance : Vec3) (fuel : Nat) : Option Model :=
  (m.get_index id).bind (fun i =>
    (m.nodes.get? i).bind (fun node =>
      update_transform
        { m with nodes := modifyNodeAt m.nodes i (fun _ => node.translate_world distance) }
        id none fuel))

/-- Model::rotate_from_angle_axis from world/model.rs. -/
def rotate_from_angle_axis (sincos : Rat → Rat × Rat) (sq : Rat → Rat) (m : Model)
    (id : NodeID) (angle_radian : Rat) (axis : Vec3) (fuel : Nat) : Option Model :=
  (m.get_index id).bind (fun i =>
    (m.nodes.get? i).bind (fun node =>
      update_transform
        { m with nodes :=
          modifyNodeAt m.nodes i (fun _ => node.rotate_from_angle_axis sincos sq angle_radian axis) }
        id none fuel))

/-- Model::rotate_from_quaternion from world/model.rs. -/
def rotate_from_quaternion (sq : Rat → Rat) (m : Model) (id : NodeID) (quaternion : Quat)
    (fuel : Nat) : Option Model :=
  (m.get_index id).bind (fun i =>
    (m.nodes.get? i).bind (fun node =>
      update_transform
        { m with nodes := modifyNodeAt m.nodes i (fun _ => node.rotate_from_quaternion sq quaternion) }
        id none fuel))

end Model

/-! ### Write-trace semantics of the transform walk

For a walk started with a supplied parent matrix, every datum the walk reads
is independent of the world matrices it writes, so the walk factors into a
pure computation of a list of (index, world matrix) writes over the
skeleton of the model, followed by applying those writes.  This factoring
is the backbone of the termination and idempotence arguments. -/

/-- Data of a node read by the walk besides its world matrix. -/
def skelNode (n : ModelNode) : Mat4x4 × Option NodeID × Option NodeID :=
  (n.transform, n.sibling, n.child)

/-- Skeleton of a node list. -/
def skel (nds : List ModelNode) : List (Mat4x4 × Option NodeID × Option NodeID) :=
  nds.map skelNode

/-- Apply a list of world-matrix writes to a node list, in order. -/
def applyW (nds : List ModelNode) (ws : List (Nat × Mat4x4)) : List ModelNode :=
  ws.foldl (fun acc iw => modifyNodeAt acc iw.1 (fun n => { n with world_matrix := iw.2 })) nds

/-- Apply a list of world-matrix writes to a model. -/
def Model.applyWrites (m : Model) (ws : List (Nat × Mat4x4)) : Model :=
  { m with nodes := applyW m.nodes ws }

/-- The writes performed by Model::update_transform when started with a
supplied parent matrix, computed from the skeleton only. -/
def collectWrites (mp : List (Nat × Nat)) (sk : List (Mat4x4 × Option NodeID × Option NodeID))
    (id : NodeID) (P : Mat4x4) : Nat → Option (List (Nat × Mat4x4))
  | 0 => none
  | fuel + 1 =>
    match mapLookup mp id with
    | none => none
    | some index =>
      match sk.get? index with
      | none => none
      | some e =>
        let world := e.1.mul_matrix4x4 P
        let afterSibling : Option (List (Nat × Mat4x4)) :=
          match e.2.1 with
          | some s => collectWrites mp sk s P fuel
          | none => some []
        afterSibling.bind (fun ws2 =>
          (match e.2.2 with
           | some c => collectWrites mp sk c world fuel
           | none => some []).bind (fun ws3 =>
            some ((index, world) :: (ws2 ++ ws3))))

/-- Reading after a bounded write: the element at j is changed exactly when
the write index hits j. -/
theorem modifyNodeAt_get? (nds : List ModelNode) (i j : Nat) (f : ModelNode → ModelNode) :
    (modifyNodeAt nds i f).get? j = if i = j then (nds.get? j).map f else nds.get? j := by
  induction nds generalizing i j with
  | nil => cases i <;> cases j <;> simp [modifyNodeAt]
  | cons hd tl ih =>
    cases i with
    | zero => cases j <;> simp [modifyNodeAt]
    | succ i =>
      cases j with
      | zero => simp [modifyNodeAt]
      | succ j => simpa [modifyNodeAt, Nat.succ_inj] using ih i j

/-- Two writes at the same index agree when the functions agree on the
element actually stored there. -/
theorem modifyNodeAt_congr (nds : List ModelNode) (i : Nat) (a : ModelNode)
    (f g : ModelNode → ModelNode) (h : nds.get? i = some a) (hfg : f a = g a) :
    modifyNodeAt nds i f = modifyNodeAt nds i g := by
  induction nds generalizing i with
  | nil => simp [modifyNodeAt]
  | cons hd tl ih =>
    cases i with
    | zero =>
      simp only [List.get?] at h
      cases h
      simp [modifyNodeAt, hfg]
    | succ i =>
      simp only [List.get?] at h
      simp [modifyNodeAt, ih i h]

/-- A write that only touches the world matrix preserves the skeleton. -/
theorem skel_modifyNodeAt (nds : List ModelNode) (i : Nat) (f : ModelNode → ModelNode)
    (hf : ∀ n, skelNode (f n) = skelNode n) :
    skel (modifyNodeAt nds i f) = skel nds := by
  induction nds generalizing i with
  | nil => simp [modifyNodeAt]
  | cons hd tl ih =>
    cases i with
    | zero => simp [modifyNodeAt, skel, hf]
    | succ i =>
      simp only [modifyNodeAt, skel, List.map]
      have := ih i
      simp only [skel] at this
      rw [this]

/-- Applying world-matrix writes preserves the skeleton. -/
theorem skel_applyW (ws : List (Nat × Mat4x4)) :
    ∀ nds : List ModelNode, skel (applyW nds ws) = skel nds := by
  induction ws with
  | nil => intro nds; rfl
  | cons iw t ih =>
    intro nds
    show skel (applyW (modifyNodeAt nds iw.1 _) t) = skel nds
    rw [ih, skel_modifyNodeAt]
    intro n
    rfl

/-- Write application distributes over list append. -/
theorem applyW_append (nds : List ModelNode) (a b : List (Nat × Mat4x4)) :
    applyW nds (a ++ b) = applyW (applyW nds a) b := by
  simp [applyW, List.foldl_append]

/-- The last write a write list schedules for an index, if any. -/
def lastWrite : List (Nat × Mat4x4) → Nat → Option Mat4x4
  | [], _ => none
  | iw :: t, j =>
    match lastWrite t j with
    | some w => some w
    | none => if iw.1 = j then some iw.2 else none

/-- Pointwise reading of an applied write list: position j holds its old
node with the world matrix of the last write scheduled for j, or is
untouched when no write hits j. -/
theorem applyW_get? (ws : List (Nat × Mat4x4)) :
    ∀ (nds : List ModelNode) (j : Nat),
      (applyW nds ws).get? j =
        match lastWrite ws j with
        | some w => (nds.get? j).map (fun n => { n with world_matrix := w })
        | none => nds.get? j := by
  induction ws with
  | nil => intro nds j; rfl
  | cons iw t ih =>
    intro nds j
    show (applyW (modifyNodeAt nds iw.1 _) t).get? j = _
    rw [ih]
    cases hw : lastWrite t j with
    | some w =>
      simp only [lastWrite, hw]
      rw [modifyNodeAt_get?]
      by_cases hij : iw.1 = j
      · simp only [hij, if_pos rfl, Option.map_map]
        cases nds.get? j <;> rfl
      · simp [hij]
    | none =>
      simp only [lastWrite, hw]
      rw [modifyNodeAt_get?]
      by_cases hij : iw.1 = j <;> simp [hij]

/-- Peeling one write off an application. -/
theorem applyWrites_cons (m : Model) (iw : Nat × Mat4x4) (ws : List (Nat × Mat4x4)) :
    m.applyWrites (iw :: ws) = (m.applyWrites [iw]).applyWrites ws := rfl

/-- Applying writes does not change the id-to-index map. -/
theorem applyWrites_map (m : Model) (ws : List (Nat × Mat4x4)) :
    (m.applyWrites ws).id_index_map = m.id_index_map := rfl

/-- Applying writes does not change the skeleton. -/
theorem applyWrites_skel (m : Model) (ws : List (Nat × Mat4x4)) :
    skel (m.applyWrites ws).nodes = skel m.nodes := skel_applyW ws m.nodes

/-- Applying the same write list twice is the same as applying it once. -/
theorem applyW_idem (nds : List ModelNode) (ws : List (Nat × Mat4x4)) :
    applyW (applyW nds ws) ws = applyW nds ws := by
  apply List.ext
  intro j
  rw [applyW_get?, applyW_get?]
  cases hw : lastWrite ws j with
  | some w =>
    simp only [Option.map_map]
    cases nds.get? j <;> rfl
  | none => rfl

/-- A walk started with a supplied parent matrix equals the application of
the writes computed from the skeleton alone. -/
theorem update_transform_eq_writes :
    ∀ (fuel : Nat) (m : Model) (id : NodeID) (P : Mat4x4),
      Model.update_transform m id (some P) fuel
        = (collectWrites m.id_index_map (skel m.nodes) id P fuel).map m.applyWrites := by
  intro fuel
  induction fuel with
  | zero => intro m id P; rfl
  | succ fuel ih =>
    intro m id P
    rw [Model.update_transform, collectWrites]
    simp only [Model.get_index]
    cases h1 : mapLookup m.id_index_map id with
    | none => rfl
    | some index =>
      have hsk2 : (skel m.nodes)[index]? = (m.nodes[index]?).map skelNode := by
        simp [skel]
      cases h2 : m.nodes[index]? with
      | none => simp [hsk2, h2]
      | some node =>
        obtain ⟨nid, ntr, nw, nme, nsh, npar, nsib, nch⟩ := node
        have h2g : m.nodes.get? index = some ⟨nid, ntr, nw, nme, nsh, npar, nsib, nch⟩ := by
          rw [List.get?_eq_getElem?]; exact h2
        have hcongr := modifyNodeAt_congr m.nodes index ⟨nid, ntr, nw, nme, nsh, npar, nsib, nch⟩ (fun _ => ⟨nid, ntr, ntr.mul_matrix4x4 P, nme, nsh, npar, nsib, nch⟩) (fun n => { n with world_matrix := ntr.mul_matrix4x4 P }) h2g rfl
        have hfold : ∀ m0 : Model, m0.applyWrites [(index, ntr.mul_matrix4x4 P)] = { m0 with nodes := modifyNodeAt m0.nodes index (fun n => { n with world_matrix := ntr.mul_matrix4x4 P }) } := fun _ => rfl
        have hsk2g : (skel m.nodes).get? index = some (ntr, nsib, nch) := by
          rw [List.get?_eq_getElem?, hsk2, h2]; rfl
        simp only [hsk2, h2, h2g, hsk2g, Option.map_some', ModelNode.update_transform, skelNode]
        cases nsib with
        | none =>
          cases nch with
          | none =>
            simp only [Option.some_bind, Option.bind_some, Option.map_some', List.append_nil]
            rw [hcongr, ← hfold m]
          | some c =>
            simp only [Option.some_bind, List.nil_append]
            rw [hcongr, ← hfold m, ih]
            rw [applyWrites_map, applyWrites_skel]
            cases h3 : collectWrites m.id_index_map (skel m.nodes) c (ntr.mul_matrix4x4 P) fuel with
            | none => rfl
            | some ws3 =>
              simp only [Option.map_some', Option.some_bind]
              rw [applyWrites_cons]
              rfl
        | some s =>
          rw [hcongr, ← hfold m]
          simp only [ih, applyWrites_map, applyWrites_skel]
          cases h3 : collectWrites m.id_index_map (skel m.nodes) s P fuel with
          | none => rfl
          | some ws2 =>
            simp only [Option.map_some', Option.some_bind]
            cases nch with
            | none =>
              simp only [Option.bind_some, Option.some_bind, Option.map_some', List.append_nil]
              rw [applyWrites_cons]
              rfl
            | some c =>
              simp only [ih, applyWrites_map, applyWrites_skel]
              cases h4 : collectWrites m.id_index_map (skel m.nodes) c (ntr.mul_matrix4x4 P) fuel with
              | none => rfl
              | some ws3 =>
                simp only [Option.map_some', Option.some_bind]
                rw [applyWrites_cons, applyWrites_cons]
                have hz : ∀ m0 : Model, m0.applyWrites [] = m0 := fun _ => rfl
                have happ : ∀ (m0 : Model) (a b : List (Nat × Mat4x4)), m0.applyWrites (a ++ b) = (m0.applyWrites a).applyWrites b := by
                  intro m0 a b
                  simp [Model.applyWrites, applyW_append]
                have hsplit : ((index, ntr.mul_matrix4x4 P) :: (ws2 ++ ws3)) = ([(index, ntr.mul_matrix4x4 P)] ++ ws2) ++ ws3 := by simp
                rw [hz, hz, hsplit, happ, happ]

/-- Applying the same writes to a model twice equals applying them once. -/
theorem applyWrites_idem (m : Model) (ws : List (Nat × Mat4x4)) :
    (m.applyWrites ws).applyWrites ws = m.applyWrites ws := by
  show ({ m with nodes := applyW (applyW m.nodes ws) ws } : Model)
    = { m with nodes := applyW m.nodes ws }
  rw [applyW_idem]

/-- Idempotence of the walk with a supplied parent matrix: a successful run
repeated on its own result reproduces that result. -/
theorem update_transform_idem_aux (m : Model) (id : NodeID) (P : Mat4x4) (fuel : Nat)
    (m2 : Model) (h : m.update_transform id (some P) fuel = some m2) :
    m2.update_transform id (some P) fuel = some m2 := by
  rw [update_transform_eq_writes] at h ⊢
  cases hc : collectWrites m.id_index_map (skel m.nodes) id P fuel with
  | none => rw [hc] at h; exact absurd h (by simp)
  | some ws =>
    rw [hc] at h
    simp only [Option.map_some'] at h
    have hm2 : m2 = m.applyWrites ws := (Option.some.injEq _ _).mp h |>.symm
    have hmap : m2.id_index_map = m.id_index_map := by rw [hm2]; rfl
    have hskel : skel m2.nodes = skel m.nodes := by rw [hm2]; exact applyWrites_skel m ws
    rw [hmap, hskel, hc]
    simp only [Option.map_some']
    rw [hm2, applyWrites_idem]

/-- Node list of a two-node child cycle: node 0 has child 1 and node 1 has
child 0 (the cycle example of the spec). -/
def cycNodes : List ModelNode :=
  [⟨0, Mat4x4.IDENTITY, Mat4x4.IDENTITY, none, none, none, none, some 1⟩,
   ⟨1, Mat4x4.IDENTITY, Mat4x4.IDENTITY, none, none, none, none, some 0⟩]

/-- The model Model::from_nodes constructs from cycNodes. -/
def cycModel : Model :=
  { name := "cyclic", root_id := 0, nodes := cycNodes,
    id_index_map := cycNodes.enum.map (fun p => (p.2.id, p.1)) }

/-- A single node whose sibling link names the absent id 7. -/
def danglingNodes : List ModelNode :=
  [⟨0, Mat4x4.IDENTITY, Mat4x4.IDENTITY, none, none, none, some 7, none⟩]

/-- On the two-node child cycle the write collection runs out of any fuel:
the walk never terminates. -/
theorem cyc_collect_none :
    ∀ (fuel : Nat) (P : Mat4x4),
      collectWrites cycModel.id_index_map (skel cycModel.nodes) 0 P fuel = none
      ∧ ∀ P2 : Mat4x4,
        collectWrites cycModel.id_index_map (skel cycModel.nodes) 1 P2 fuel = none := by
  intro fuel
  induction fuel with
  | zero => intro P; exact ⟨rfl, fun _ => rfl⟩
  | succ fuel ih =>
    intro P
    constructor
    · rw [collectWrites]
      have h0 : mapLookup cycModel.id_index_map (0 : Nat) = some 0 := rfl
      have hs0 : (skel cycModel.nodes).get? 0
          = some (Mat4x4.IDENTITY, none, some 1) := rfl
      rw [h0]
      simp only [hs0, Option.some_bind]
      rw [(ih P).2 (Mat4x4.IDENTITY.mul_matrix4x4 P)]
      rfl
    · intro P2
      rw [collectWrites]
      have h1 : mapLookup cycModel.id_index_map (1 : Nat) = some 1 := rfl
      have hs1 : (skel cycModel.nodes).get? 1
          = some (Mat4x4.IDENTITY, none, some 0) := rfl
      rw [h1]
      simp only [hs1, Option.some_bind]
      rw [(ih (Mat4x4.IDENTITY.mul_matrix4x4 P2)).1]
      rfl

/-- C1: Model::from_nodes is claimed to reject every node list with a
dangling parent/sibling/child reference or a sibling/child cycle.  The code
only validates the root id: it accepts a dangling sibling reference, it
accepts a two-node child cycle, and on the accepted cycle the transform
walk exhausts every fuel bound, i.e. the Rust recursion never terminates. -/
theorem claim_C1_from_nodes_validation :
    (Model.from_nodes "dangling" 0 danglingNodes).isOk = true
    ∧ Model.from_nodes "cyclic" 0 cycNodes = Except.ok cycModel
    ∧ ∀ fuel : Nat,
        cycModel.update_transform 0 (some Mat4x4.IDENTITY) fuel = none := by
  refine ⟨rfl, rfl, ?_⟩
  intro fuel
  rw [update_transform_eq_writes, (cyc_collect_none fuel Mat4x4.IDENTITY).1]
  rfl

/-- Stated from the spec wording of the composition law: row-vector
convention with the parent matrix on the right, entry (i, j) being the dot
product of row i of the local matrix with column j of the parent matrix.
This definition is compared against the embedded source multiplication. -/
def rowVectorCompose (l p : Mat4x4) : Mat4x4 where
  r1c1 := l.r1c1 * p.r1c1 + l.r1c2 * p.r2c1 + l.r1c3 * p.r3c1 + l.r1c4 * p.r4c1
  r1c2 := l.r1c1 * p.r1c2 + l.r1c2 * p.r2c2 + l.r1c3 * p.r3c2 + l.r1c4 * p.r4c2
  r1c3 := l.r1c1 * p.r1c3 + l.r1c2 * p.r2c3 + l.r1c3 * p.r3c3 + l.r1c4 * p.r4c3
  r1c4 := l.r1c1 * p.r1c4 + l.r1c2 * p.r2c4 + l.r1c3 * p.r3c4 + l.r1c4 * p.r4c4
  r2c1 := l.r2c1 * p.r1c1 + l.r2c2 * p.r2c1 + l.r2c3 * p.r3c1 + l.r2c4 * p.r4c1
  r2c2 := l.r2c1 * p.r1c2 + l.r2c2 * p.r2c2 + l.r2c3 * p.r3c2 + l.r2c4 * p.r4c2
  r2c3 := l.r2c1 * p.r1c3 + l.r2c2 * p.r2c3 + l.r2c3 * p.r3c3 + l.r2c4 * p.r4c3
  r2c4 := l.r2c1 * p.r1c4 + l.r2c2 * p.r2c4 + l.r2c3 * p.r3c4 + l.r2c4 * p.r4c4
  r3c1 := l.r3c1 * p.r1c1 + l.r3c2 * p.r2c1 + l.r3c3 * p.r3c1 + l.r3c4 * p.r4c1
  r3c2 := l.r3c1 * p.r1c2 + l.r3c2 * p.r2c2 + l.r3c3 * p.r3c2 + l.r3c4 * p.r4c2
  r3c3 := l.r3c1 * p.r1c3 + l.r3c2 * p.r2c3 + l.r3c3 * p.r3c3 + l.r3c4 * p.r4c3
  r3c4 := l.r3c1 * p.r1c4 + l.r3c2 * p.r2c4 + l.r3c3 * p.r3c4 + l.r3c4 * p.r4c4
  r4c1 := l.r4c1 * p.r1c1 + l.r4c2 * p.r2c1 + l.r4c3 * p.r3c1 + l.r4c4 * p.r4c1
  r4c2 := l.r4c1 * p.r1c2 + l.r4c2 * p.r2c2 + l.r4c3 * p.r3c2 + l.r4c4 * p.r4c2
  r4c3 := l.r4c1 * p.r1c3 + l.r4c2 * p.r2c3 + l.r4c3 * p.r3c3 + l.r4c4 * p.r4c3
  r4c4 := l.r4c1 * p.r1c4 + l.r4c2 * p.r2c4 + l.r4c3 * p.r3c4 + l.r4c4 * p.r4c4

/-- C5: after ModelNode::update_transform runs with parent matrix some P,
the stored world matrix and the returned world matrix both equal the local
transform composed with P in row-vector convention with the parent on the
right, exactly. -/
theorem claim_C5_world_is_local_times_parent (n : ModelNode) (P : Mat4x4) :
    ((n.update_transform (some P)).1).world_matrix = rowVectorCompose n.transform P
    ∧ (n.update_transform (some P)).2.1 = rowVectorCompose n.transform P :=
  ⟨rfl, rfl⟩

/-- Local translation by (1, 0, 0): the identity with the position row set.
Scene node A of the spec end-to-end scenario. -/
def exT100 : Mat4x4 :=
  ⟨1, 0, 0, 0, 0, 1, 0, 0, 0, 0, 1, 0, 1, 0, 0, 1⟩

/-- Local translation by (0, 1, 0).  Scene node B of the spec end-to-end
scenario. -/
def exT010 : Mat4x4 :=
  ⟨1, 0, 0, 0, 0, 1, 0, 0, 0, 0, 1, 0, 0, 1, 0, 1⟩

/-- Nodes of the spec end-to-end scenario: root R with identity local
transform and child A; A translated by (1,0,0) with sibling B; B translated
by (0,1,0); both children of R. -/
def exNodes : List ModelNode :=
  [⟨0, Mat4x4.IDENTITY, Mat4x4.IDENTITY, none, none, none, none, some 1⟩,
   ⟨1, exT100, Mat4x4.IDENTITY, none, none, some 0, some 2, none⟩,
   ⟨2, exT010, Mat4x4.IDENTITY, none, none, some 0, none, none⟩]

/-- The model Model::from_nodes constructs from exNodes. -/
def exModel : Model :=
  { name := "endToEnd", root_id := 0, nodes := exNodes,
    id_index_map := exNodes.enum.map (fun p => (p.2.id, p.1)) }

/-- Translation components of the world matrix of the node stored at a list
index of the resulting model, used to observe the scenario outcome. -/
def worldTranslationAt (r : Option Model) (i : Nat) : Option (Rat × Rat × Rat) :=
  (r.bind (fun m2 => m2.nodes.get? i)).map
    (fun n => (n.world_matrix.r4c1, n.world_matrix.r4c2, n.world_matrix.r4c3))

/-- Identity times identity, proved once for the concrete runs. -/
theorem mul_IDENTITY_IDENTITY :
    Mat4x4.IDENTITY.mul_matrix4x4 Mat4x4.IDENTITY = Mat4x4.IDENTITY := by
  simp [Mat4x4.mul_matrix4x4, Mat4x4.IDENTITY]

/-- World matrix the walk computes for the scenario root: identity local
transform times identity parent matrix. -/
def exWRoot : Mat4x4 := Mat4x4.IDENTITY.mul_matrix4x4 Mat4x4.IDENTITY

/-- World matrix the walk computes for scenario node A. -/
def exWA : Mat4x4 := exT100.mul_matrix4x4 exWRoot

/-- World matrix the walk computes for scenario node B. -/
def exWB : Mat4x4 := exT010.mul_matrix4x4 exWRoot

/-- Nodes of exNodes after the walk, with the world matrices the walk
computes. -/
def exNodesAfter : List ModelNode :=
  [⟨0, Mat4x4.IDENTITY, exWRoot, none, none, none, none, some 1⟩,
   ⟨1, exT100, exWA, none, none, some 0, some 2, none⟩,
   ⟨2, exT010, exWB, none, none, some 0, none, none⟩]

/-- The scenario model after one update_transform walk from the root. -/
def exModelAfter : Model :=
  { name := "endToEnd", root_id := 0, nodes := exNodesAfter,
    id_index_map := exNodes.enum.map (fun p => (p.2.id, p.1)) }

/-- Concrete run of the walk on the scenario model: fuel three suffices for
the three-node tree and the walk produces exModelAfter by pure structural
reduction (the world matrices stay as unevaluated products). -/
theorem ex_run :
    exModel.update_transform 0 (some Mat4x4.IDENTITY) 3 = some exModelAfter := rfl

/-- C6: Model::update_transform recurses into the sibling of a node with
the same parent matrix it was given and into the child with the freshly
computed world matrix (local times parent); in particular, on the spec
scenario of root R with children A (translated (1,0,0), sibling link to B)
and B (translated (0,1,0)), one call with the identity parent matrix gives
A a world translation (1,0,0) and B a world translation (0,1,0). -/
theorem claim_C6_walk_order :
    (∀ (m : Model) (id : NodeID) (P : Mat4x4) (fuel : Nat) (i : Nat) (node : ModelNode),
      m.get_index id = some i → m.nodes.get? i = some node →
      m.update_transform id (some P) (Nat.succ fuel) =
        (match node.sibling with
         | some s => Model.update_transform
            { m with nodes := modifyNodeAt m.nodes i (fun _ => (node.update_transform (some P)).1) }
            s (some P) fuel
         | none => some
            { m with nodes := modifyNodeAt m.nodes i (fun _ => (node.update_transform (some P)).1) }).bind
        (fun m2 =>
          match node.child with
          | some c => Model.update_transform m2 c (some ((node.update_transform (some P)).2.1)) fuel
          | none => some m2))
    ∧ (∀ (n : ModelNode) (P : Mat4x4),
        (n.update_transform (some P)).2.1 = n.transform.mul_matrix4x4 P)
    ∧ Model.from_nodes "endToEnd" 0 exNodes = Except.ok exModel
    ∧ worldTranslationAt (exModel.update_transform 0 (some Mat4x4.IDENTITY) 3) 1
        = some (1, 0, 0)
    ∧ worldTranslationAt (exModel.update_transform 0 (some Mat4x4.IDENTITY) 3) 2
        = some (0, 1, 0) := by
  refine ⟨?_, fun n P => rfl, rfl, ?_, ?_⟩
  rotate_left
  · rw [ex_run]
    show some (exWA.r4c1, exWA.r4c2, exWA.r4c3) = some (1, 0, 0)
    simp [exWA, exWRoot, exT100, Mat4x4.mul_matrix4x4, Mat4x4.IDENTITY]
  · rw [ex_run]
    show some (exWB.r4c1, exWB.r4c2, exWB.r4c3) = some (0, 1, 0)
    simp [exWB, exWRoot, exT010, Mat4x4.mul_matrix4x4, Mat4x4.IDENTITY]
  intro m id P fuel i node h1 h2
  have h2e : m.nodes[i]? = some node := by
    rw [← List.get?_eq_getElem?]; exact h2
  rw [Model.update_transform]
  rw [h1]
  simp only [h2, h2e]
  have hs : (node.update_transform (some P)).2.2.1 = node.sibling := rfl
  have hc : (node.update_transform (some P)).2.2.2 = node.child := rfl
  rw [hs, hc]

/-- A single root node with identity transforms and no links. -/
def singleNode : List ModelNode :=
  [⟨0, Mat4x4.IDENTITY, Mat4x4.IDENTITY, none, none, none, none, none⟩]

/-- The model Model::from_nodes constructs from singleNode. -/
def singleModel : Model :=
  { name := "single", root_id := 0, nodes := singleNode,
    id_index_map := singleNode.enum.map (fun p => (p.2.id, p.1)) }

/-- Witness for C6: the walk-order equation applied to the one-node model
at fuel 1 with the identity parent matrix. -/
theorem claim_C6_walk_order_witness :
    singleModel.update_transform 0 (some Mat4x4.IDENTITY) 1 = some { singleModel with nodes := modifyNodeAt singleModel.nodes 0 (fun _ => ((⟨0, Mat4x4.IDENTITY, Mat4x4.IDENTITY, none, none, none, none, none⟩ : ModelNode).update_transform (some Mat4x4.IDENTITY)).1) } :=
  claim_C6_walk_order.1 singleModel 0 Mat4x4.IDENTITY 0 0
    ⟨0, Mat4x4.IDENTITY, Mat4x4.IDENTITY, none, none, none, none, none⟩ rfl rfl

/-- C9: update_transform with a supplied parent matrix is idempotent: if a
run returns a model, running it again on that model with the same id and
parent matrix returns the very same model. -/
theorem claim_C9_update_transform_idempotent (m : Model) (id : NodeID) (P : Mat4x4)
    (fuel : Nat) (m2 : Model) (h : m.update_transform id (some P) fuel = some m2) :
    m2.update_transform id (some P) fuel = some m2 :=
  update_transform_idem_aux m id P fuel m2 h

/-- Concrete run of the walk on the one-node model: the world matrix of the
root becomes identity times identity, which is the identity again, so the
run reproduces the model. -/
theorem single_run :
    singleModel.update_transform 0 (some Mat4x4.IDENTITY) 1 = some singleModel := by
  have h1 : singleModel.update_transform 0 (some Mat4x4.IDENTITY) 1
      = some { name := "single", root_id := 0, nodes := [⟨0, Mat4x4.IDENTITY, Mat4x4.IDENTITY.mul_matrix4x4 Mat4x4.IDENTITY, none, none, none, none, none⟩], id_index_map := singleNode.enum.map (fun p => (p.2.id, p.1)) } := rfl
  rw [h1, mul_IDENTITY_IDENTITY]
  rfl

/-- Witness for C9: on the one-node model the run with identity parent
matrix returns the model itself, and the theorem reproduces that result. -/
theorem claim_C9_update_transform_idempotent_witness :
    singleModel.update_transform 0 (some Mat4x4.IDENTITY) 1 = some singleModel
    ∧ singleModel.update_transform 0 (some Mat4x4.IDENTITY) 1 = some singleModel :=
  ⟨single_run,
   claim_C9_update_transform_idempotent singleModel 0 Mat4x4.IDENTITY 1 singleModel single_run⟩

/-- Identity transform with its position row set to (1, 2, 3), the local
transform after the counterexample mutation. -/
def c7T123 : Mat4x4 :=
  ⟨1, 0, 0, 0, 0, 1, 0, 0, 0, 0, 1, 0, 1, 2, 3, 1⟩

/-- The one-node model after set_position to (1, 2, 3): the local transform
carries the translation but the world matrix is still the identity. -/
def c7After : Model :=
  { name := "single", root_id := 0,
    nodes := [⟨0, c7T123, Mat4x4.IDENTITY, none, none, none, none, none⟩],
    id_index_map := singleNode.enum.map (fun p => (p.2.id, p.1)) }

/-- Counterexample to C7: on a parentless single node with identity world
matrix, set_position changes the local transform to a translation but the
world matrix stays the identity: update_transform with parent None does NOT
recompute the world matrix from the (identity) parent composition state,
which would have produced the translation matrix. -/
theorem claim_C7_counterexample :
    Model.set_position singleModel 0 (Vec3.new_vector 1 2 3) 1 = some c7After
    ∧ (c7After.nodes.get? 0).map ModelNode.transform = some c7T123
    ∧ (c7After.nodes.get? 0).map ModelNode.world_matrix = some Mat4x4.IDENTITY
    ∧ c7T123 ≠ Mat4x4.IDENTITY := by
  refine ⟨rfl, rfl, rfl, ?_⟩
  intro h
  have : c7T123.r4c1 = Mat4x4.IDENTITY.r4c1 := by rw [h]
  simp [c7T123, Mat4x4.IDENTITY] at this

/-- Two nodes with stale stored world matrices: the root stores world
exT100 while its transform is the identity; node 1 is its child. -/
def c7DeepNodes : List ModelNode :=
  [⟨0, Mat4x4.IDENTITY, exT100, none, none, none, none, some 1⟩,
   ⟨1, exT010, Mat4x4.IDENTITY, none, none, some 0, none, none⟩]

/-- The model built over c7DeepNodes. -/
def c7DeepModel : Model :=
  { name := "deep", root_id := 0, nodes := c7DeepNodes,
    id_index_map := c7DeepNodes.enum.map (fun p => (p.2.id, p.1)) }

/-- Identity transform with its position row set to (5, 6, 7). -/
def c7T567 : Mat4x4 :=
  ⟨1, 0, 0, 0, 0, 1, 0, 0, 0, 0, 1, 0, 5, 6, 7, 1⟩

/-- c7DeepModel after set_position of the root to (5, 6, 7): the root keeps
its stored world matrix exT100 untouched, and the child world matrix is
recomputed against that stored world matrix as composition base. -/
def c7DeepAfter : Model :=
  { name := "deep", root_id := 0,
    nodes := [⟨0, c7T567, exT100, none, none, none, none, some 1⟩,
      ⟨1, exT010, exT010.mul_matrix4x4 exT100, none, none, some 0, none, none⟩],
    id_index_map := c7DeepNodes.enum.map (fun p => (p.2.id, p.1)) }

/-- C7 as amended: every local mutator ends by calling update_transform
with its own id and parent None; with parent None the node-level update
leaves the world matrix unchanged and returns the stored world matrix,
sibling and child, so the mutated node keeps its stored world matrix and
its descendants are composed against that stored world matrix. -/
theorem claim_C7_amended_mutators_keep_world :
    (∀ (m : Model) (id : NodeID) (p : Vec3) (fuel : Nat),
      Model.set_position m id p fuel = (m.get_index id).bind (fun i => (m.nodes.get? i).bind (fun node => Model.update_transform { m with nodes := modifyNodeAt m.nodes i (fun _ => node.set_position p) } id none fuel)))
    ∧ (∀ (sq : Rat → Rat) (m : Model) (id : NodeID) (q : Quat) (fuel : Nat),
      Model.set_quaternion sq m id q fuel = (m.get_index id).bind (fun i => (m.nodes.get? i).bind (fun node => Model.update_transform { m with nodes := modifyNodeAt m.nodes i (fun _ => node.set_quaternion sq q) } id none fuel)))
    ∧ (∀ (sq : Rat → Rat) (m : Model) (id : NodeID) (pt : Vec3) (fuel : Nat),
      Model.set_look_at_point sq m id pt fuel = (m.get_index id).bind (fun i => (m.nodes.get? i).bind (fun node => Model.update_transform { m with nodes := modifyNodeAt m.nodes i (fun _ => node.set_look_at_point sq pt) } id none fuel)))
    ∧ (∀ (sq : Rat → Rat) (m : Model) (id : NodeID) (d : Vec3) (fuel : Nat),
      Model.translate_local sq m id d fuel = (m.get_index id).bind (fun i => (m.nodes.get? i).bind (fun node => Model.update_transform { m with nodes := modifyNodeAt m.nodes i (fun _ => node.translate_local sq d) } id none fuel)))
    ∧ (∀ (m : Model) (id : NodeID) (d : Vec3) (fuel : Nat),
      Model.translate_world m id d fuel = (m.get_index id).bind (fun i => (m.nodes.get? i).bind (fun node => Model.update_transform { m with nodes := modifyNodeAt m.nodes i (fun _ => node.translate_world d) } id none fuel)))
    ∧ (∀ (sincos : Rat → Rat × Rat) (sq : Rat → Rat) (m : Model) (id : NodeID) (a : Rat) (ax : Vec3) (fuel : Nat),
      Model.rotate_from_angle_axis sincos sq m id a ax fuel = (m.get_index id).bind (fun i => (m.nodes.get? i).bind (fun node => Model.update_transform { m with nodes := modifyNodeAt m.nodes i (fun _ => node.rotate_from_angle_axis sincos sq a ax) } id none fuel)))
    ∧ (∀ (sq : Rat → Rat) (m : Model) (id : NodeID) (q : Quat) (fuel : Nat),
      Model.rotate_from_quaternion sq m id q fuel = (m.get_index id).bind (fun i => (m.nodes.get? i).bind (fun node => Model.update_transform { m with nodes := modifyNodeAt m.nodes i (fun _ => node.rotate_from_quaternion sq q) } id none fuel)))
    ∧ (∀ n : ModelNode,
        n.update_transform none = (n, n.world_matrix, n.sibling, n.child))
    ∧ Model.set_position c7DeepModel 0 (Vec3.new_vector 5 6 7) 2 = some c7DeepAfter :=
  ⟨fun _ _ _ _ => rfl, fun _ _ _ _ _ => rfl, fun _ _ _ _ _ => rfl,
   fun _ _ _ _ _ => rfl, fun _ _ _ _ => rfl, fun _ _ _ _ _ _ _ => rfl,
   fun _ _ _ _ _ => rfl, fun _ => rfl, rfl⟩

/-- A successful lookup binding occurs in the association list. -/
theorem mapLookup_mem {α : Type} (l : List (Nat × α)) (k : Nat) (v : α)
    (h : mapLookup l k = some v) : (k, v) ∈ l := by
  have haux : ∀ (l2 : List (Nat × α)) (acc : Option α),
      l2.foldl (fun acc kv => if kv.1 = k then some kv.2 else acc) acc = some v →
      (k, v) ∈ l2 ∨ acc = some v := by
    intro l2
    induction l2 with
    | nil => intro acc hacc; exact Or.inr hacc
    | cons kv t ih =>
      intro acc hacc
      rcases ih _ hacc with hmem | hacc2
      · exact Or.inl (List.mem_cons_of_mem _ hmem)
      · have hacc3 : (if kv.1 = k then some kv.2 else acc) = some v := hacc2
        by_cases hk : kv.1 = k
        · rw [if_pos hk] at hacc3
          have : (k, v) = kv := by
            cases hacc3
            exact Prod.ext hk.symm rfl
          exact Or.inl (this ▸ List.mem_cons_self _ _)
        · rw [if_neg hk] at hacc3
          exact Or.inr hacc3
  rcases haux l none h with hmem | hbad
  · exact hmem
  · exact absurd hbad (by simp)

/-- Every index a from_nodes id map can return is a valid node index. -/
theorem from_nodes_valid_index (name : String) (root : NodeID) (nodes : List ModelNode)
    (m : Model) (h : Model.from_nodes name root nodes = Except.ok m) :
    ∀ (id : NodeID) (i : Nat), m.get_index id = some i → (m.nodes.get? i).isSome := by
  intro id i hi
  rw [Model.from_nodes] at h
  split at h
  · exact absurd h (by simp)
  · have hm : m = { name := name, root_id := root, nodes := nodes, id_index_map := nodes.enum.map (fun p => (p.2.id, p.1)) } := by
      cases h
      rfl
    subst hm
    have hmem := mapLookup_mem _ _ _ hi
    rcases List.mem_map.mp hmem with ⟨p, hp, hpe⟩
    have hp1 : p.1 = i := congrArg Prod.snd hpe
    have hlt : p.1 < nodes.length := by
      have := List.mem_enum_iff_getElem?.mp hp
      have hlen := List.getElem?_eq_some.mp this
      exact hlen.1
    have hilt : i < nodes.length := hp1 ▸ hlt
    rw [List.get?_eq_getElem?, List.getElem?_eq_getElem hilt]
    rfl

/-- C10: every public Model operation that takes a node id is partial in
that id: the getters return a value exactly when the id is a key of the
id-to-index map, and the mutators and update_transform can return a value
only when it is; otherwise the panic branch (modelled as none) is taken. -/
theorem claim_C10_operations_partial_in_id (name : String) (root : NodeID)
    (nodes : List ModelNode) (m : Model)
    (h : Model.from_nodes name root nodes = Except.ok m)
    (sq : Rat → Rat) (sincos : Rat → Rat × Rat) (id : NodeID) (p : Vec3) (q : Quat)
    (pt : Vec3) (d : Vec3) (a : Rat) (ax : Vec3) (pm : Option Mat4x4) (fuel : Nat) :
    ((m.get_position id).isSome ↔ (m.get_index id).isSome)
    ∧ ((m.get_quaternion sq id).isSome ↔ (m.get_index id).isSome)
    ∧ ((m.get_local_right_vector id).isSome ↔ (m.get_index id).isSome)
    ∧ ((m.get_local_up_vector id).isSome ↔ (m.get_index id).isSome)
    ∧ ((m.get_local_look_vector id).isSome ↔ (m.get_index id).isSome)
    ∧ ((Model.set_position m id p fuel).isSome → (m.get_index id).isSome)
    ∧ ((Model.set_quaternion sq m id q fuel).isSome → (m.get_index id).isSome)
    ∧ ((Model.set_look_at_point sq m id pt fuel).isSome → (m.get_index id).isSome)
    ∧ ((Model.translate_local sq m id d fuel).isSome → (m.get_index id).isSome)
    ∧ ((Model.translate_world m id d fuel).isSome → (m.get_index id).isSome)
    ∧ ((Model.rotate_from_angle_axis sincos sq m id a ax fuel).isSome → (m.get_index id).isSome)
    ∧ ((Model.rotate_from_quaternion sq m id q fuel).isSome → (m.get_index id).isSome)
    ∧ ((m.update_transform id pm fuel).isSome → (m.get_index id).isSome) := by
  have hget : ∀ {β : Type} (f : ModelNode → β),
      ((m.get_index id).bind (fun i => (m.ref_node i).map f)).isSome
        ↔ (m.get_index id).isSome := by
    intro β f
    cases hgi : m.get_index id with
    | none => simp
    | some i =>
      have := from_nodes_valid_index name root nodes m h id i hgi
      cases hv : m.nodes.get? i with
      | none => rw [hv] at this; exact absurd this (by simp)
      | some node =>
        have hve : m.nodes[i]? = some node := by
          rw [← List.get?_eq_getElem?]; exact hv
        simp [Model.ref_node, hv, hve]
  have hmut : ∀ (g : ModelNode → ModelNode),
      ((m.get_index id).bind (fun i =>
        (m.nodes.get? i).bind (fun node => Model.update_transform
          { m with nodes := modifyNodeAt m.nodes i (fun _ => g node) } id none fuel))).isSome
        → (m.get_index id).isSome := by
    intro g hs
    cases hgi : m.get_index id with
    | none => rw [hgi] at hs; exact absurd hs (by simp)
    | some i => simp
  refine ⟨hget _, hget _, hget _, hget _, hget _,
    hmut _, hmut _, hmut _, hmut _, hmut _, hmut _, hmut _, ?_⟩
  intro hs
  cases fuel with
  | zero => exact absurd hs (by simp [Model.update_transform])
  | succ fuel =>
    cases hgi : m.get_index id with
    | none =>
      rw [Model.update_transform, hgi] at hs
      exact absurd hs (by simp)
    | some i => simp

/-- Witness for C10: the partiality statement instantiated on the scenario
model with id 0 (present: every getter succeeds) discharged through the
theorem at concrete arguments. -/
theorem claim_C10_operations_partial_in_id_witness :
    ((exModel.get_position 0).isSome ↔ (exModel.get_index 0).isSome)
    ∧ ((exModel.get_quaternion (fun x => x) 0).isSome ↔ (exModel.get_index 0).isSome)
    ∧ ((exModel.get_local_right_vector 0).isSome ↔ (exModel.get_index 0).isSome)
    ∧ ((exModel.get_local_up_vector 0).isSome ↔ (exModel.get_index 0).isSome)
    ∧ ((exModel.get_local_look_vector 0).isSome ↔ (exModel.get_index 0).isSome)
    ∧ ((Model.set_position exModel 0 Vec3.ZERO 3).isSome → (exModel.get_index 0).isSome)
    ∧ ((Model.set_quaternion (fun x => x) exModel 0 ⟨0, 0, 0, 1⟩ 3).isSome → (exModel.get_index 0).isSome)
    ∧ ((Model.set_look_at_point (fun x => x) exModel 0 Vec3.ZERO 3).isSome → (exModel.get_index 0).isSome)
    ∧ ((Model.translate_local (fun x => x) exModel 0 Vec3.ZERO 3).isSome → (exModel.get_index 0).isSome)
    ∧ ((Model.translate_world exModel 0 Vec3.ZERO 3).isSome → (exModel.get_index 0).isSome)
    ∧ ((Model.rotate_from_angle_axis (fun x => (x, x)) (fun x => x) exModel 0 0 Vec3.ZERO 3).isSome → (exModel.get_index 0).isSome)
    ∧ ((Model.rotate_from_quaternion (fun x => x) exModel 0 ⟨0, 0, 0, 1⟩ 3).isSome → (exModel.get_index 0).isSome)
    ∧ ((exModel.update_transform 0 none 3).isSome → (exModel.get_index 0).isSome) :=
  claim_C10_operations_partial_in_id "endToEnd" 0 exNodes exModel rfl
    (fun x => x) (fun x => (x, x)) 0 Vec3.ZERO ⟨0, 0, 0, 1⟩ Vec3.ZERO Vec3.ZERO 0
    Vec3.ZERO none 3

/-- MAX_OBJECTS_NUM from app/constant.rs: the fixed object pool size. -/
def MAX_OBJECTS_NUM : Nat := 5000

/-- object_range as computed in MainScene::update and MainScene::draw
(app/mod.rs): the pool size divided by the worker count with integer
division. -/
def object_range (pool_size num_threads : Nat) : Nat := pool_size / num_threads

/-- Whether some worker index range of the update and draw loops contains
the pool index idx: worker i iterates object_range * i up to
object_range * (i + 1), exclusive. -/
def worker_covers (pool_size num_threads idx : Nat) : Bool :=
  (List.range num_threads).any (fun i =>
    decide (object_range pool_size num_threads * i ≤ idx
      ∧ idx < object_range pool_size num_threads * (i + 1)))

/-- C2: the claim says the worker ranges partition all of the pool for
every pool size and thread count.  Evaluating the embedded range
computation at the actual pool size 5000 with 3 workers: index 4999 is a
valid pool index covered by no worker (the truncated division drops the
remainder), while index 4997 is covered, so the union of the ranges is a
strict subset of the pool. -/
theorem claim_C2_partition_gap :
    4999 < MAX_OBJECTS_NUM
    ∧ worker_covers MAX_OBJECTS_NUM 3 4999 = false
    ∧ worker_covers MAX_OBJECTS_NUM 3 4997 = true := by
  decide

/-- Vec::pop on a Rust vector: removes and returns the LAST element. -/
def vecPop {α : Type} : List α → Option (List α × α)
  | [] => none
  | x :: xs =>
    match vecPop xs with
    | some (rest, l) => some (x :: rest, l)
    | none => some ([], x)

/-- Popping shortens the vector. -/
theorem vecPop_length {α : Type} :
    ∀ (hs rest : List α) (l : α), vecPop hs = some (rest, l) →
      rest.length < hs.length := by
  intro hs
  induction hs with
  | nil => intro rest l h; exact absurd h (by simp [vecPop])
  | cons x xs ih =>
    intro rest l h
    rw [vecPop] at h
    cases hv : vecPop xs with
    | none =>
      rw [hv] at h
      cases h
      simp
    | some pr =>
      rw [hv] at h
      cases h
      exact Nat.succ_lt_succ (ih pr.1 pr.2 (by rw [hv]))

/-- Popping a vector with last element x yields x and the front. -/
theorem vecPop_concat {α : Type} (xs : List α) (x : α) :
    vecPop (xs ++ [x]) = some (xs, x) := by
  induction xs with
  | nil => rfl
  | cons y ys ih => simp [vecPop, ih]

/-- The while-let pop/push drain loop of MainScene::draw (app/mod.rs lines
332-335): handles are popped from the END of the handles vector and their
results pushed onto the command buffer list. -/
def drainJoin {α : Type} (hs acc : List α) : List α :=
  match h : vecPop hs with
  | none => acc
  | some (rest, l) => drainJoin rest (acc ++ [l])
termination_by hs.length
decreasing_by exact vecPop_length hs rest l h

/-- The drain loop appends the reversal of the handles vector. -/
theorem drainJoin_eq {α : Type} (hs : List α) :
    ∀ acc : List α, drainJoin hs acc = acc ++ hs.reverse := by
  induction hs using List.reverseRecOn with
  | nil =>
    intro acc
    rw [drainJoin]
    split
    · simp
    · rename_i rest l h
      exact absurd h (by simp [vecPop])
  | append_singleton xs x ih =>
    intro acc
    rw [drainJoin]
    split
    · rename_i h
      rw [vecPop_concat] at h
      exact absurd h (by simp)
    · rename_i rest l h
      rw [vecPop_concat] at h
      cases h
      rw [ih]
      simp

/-- The merged secondary command buffer list of MainScene::draw: handles
are spawned for workers 0 up to num_threads - 1 in order, then drained by
popping. -/
def merged_secondary_buffers {α : Type} (num_threads : Nat) (worker : Nat → α) : List α :=
  drainJoin ((List.range num_threads).map worker) []

/-- Counterexample to C3: with two workers whose partial lists are their
own indices, the merged list is [1, 0]: its element 0 is the partial list
of worker 1, not of worker 0 as the claim states. -/
theorem claim_C3_counterexample :
    merged_secondary_buffers 2 (fun i => i) = [1, 0]
    ∧ (merged_secondary_buffers 2 (fun i => i)).get? 0 ≠ some 0 := by
  have h : merged_secondary_buffers 2 (fun i => i) = [1, 0] := by
    rw [merged_secondary_buffers, drainJoin_eq]
    rfl
  exact ⟨h, by rw [h]; decide⟩

/-- C3 as amended: the merged list is in DESCENDING worker order: for every
worker count and k below it, element k of the merged list is the partial
list recorded by worker (count - 1 - k). -/
theorem claim_C3_merge_order_descending {α : Type} (num_threads : Nat)
    (worker : Nat → α) (k : Nat) (hk : k < num_threads) :
    (merged_secondary_buffers num_threads worker).get? k
      = some (worker (num_threads - 1 - k)) := by
  rw [merged_secondary_buffers, drainJoin_eq]
  simp only [List.nil_append]
  rw [List.get?_eq_getElem?]
  have hlen : (((List.range num_threads).map worker).reverse).length = num_threads := by
    simp
  have hklen : k < (((List.range num_threads).map worker).reverse).length := by
    rw [hlen]; exact hk
  rw [List.getElem?_eq_getElem hklen]
  congr 1
  rw [List.getElem_reverse]
  simp [Nat.sub_sub]

/-- Witness for C3 as amended: with three workers, element 0 of the merged
list is the partial list of worker 2. -/
theorem claim_C3_merge_order_descending_witness :
    (merged_secondary_buffers 3 (fun i => i)).get? 0 = some ((fun i : Nat => i) (3 - 1 - 0)) :=
  claim_C3_merge_order_descending 3 (fun i => i) 0 (by decide)

/-- SceneRequest from world/scene.rs. -/
inductive SceneRequest where
  | Pop
  | Push (id : Nat)
  | Change (id : Nat)
deriving DecidableEq, Repr

/-- A scene node behind the SceneNode trait of world/scene.rs, modelled by
its observable behaviour: the request it reports and whether each fallible
hook succeeds (the hooks are opaque effects on the renderer). -/
structure SceneNode where
  request : Option SceneRequest
  enterOk : Bool
  exitOk : Bool
  updateOk : Bool
  drawOk : Bool
deriving DecidableEq, Repr

/-- SceneManager from world/scene.rs: a stack of scene ids (back of the
VecDeque is the last list element) and the registered nodes (association
list modelling the HashMap built from the constructor argument). -/
structure SceneManager where
  stack : List Nat
  nodes : List (Nat × SceneNode)
deriving DecidableEq, Repr

namespace SceneManager

/-- SceneManager::new from world/scene.rs: build the node map, then look up
the entry point; a missing entry point is the expect panic (none), a
failing enter propagates as an error, otherwise the stack holds exactly the
entry point. -/
def new (nodes : List (Nat × SceneNode)) (entry_point : Nat) :
    Option (Except String SceneManager) :=
  match mapLookup nodes entry_point with
  | none => none
  | some node =>
    if node.enterOk then
      some (Except.ok { stack := [entry_point], nodes := nodes })
    else
      some (Except.error "enter failed")

/-- SceneManager::get_current_id from world/scene.rs: the back of the
stack; an empty stack is the expect panic. -/
def get_current_id (m : SceneManager) : Option Nat :=
  m.stack.getLast?

/-- SceneManager::mut_scene_node from world/scene.rs: lookup of a scene
node; an unregistered id is the expect panic. -/
def mut_scene_node (m : SceneManager) (id : Nat) : Option SceneNode :=
  mapLookup m.nodes id

/-- The update and draw calls that end SceneManager::frame_advanced. -/
def runUpdateDraw (m : SceneManager) (node : SceneNode) :
    Option (Except String SceneManager) :=
  if node.updateOk then
    if node.drawOk then some (Except.ok m) else some (Except.error "draw failed")
  else
    some (Except.error "update failed")

/-- SceneManager::frame_advanced from world/scene.rs: read the current
scene request; on Pop exit and reactivate the new stack top, on Push stack
the new scene and enter it, on Change exit, replace the stack top and enter
the replacement; then update and draw the resulting current scene.  Every
expect panic is the none case; hook failures are errors. -/
def frame_advanced (m : SceneManager) : Option (Except String SceneManager) :=
  match m.get_current_id with
  | none => none
  | some cid =>
    match m.mut_scene_node cid with
    | none => none
    | some curr =>
      match curr.request with
      | none => runUpdateDraw m curr
      | some SceneRequest.Pop =>
        if curr.exitOk then
          let m2 : SceneManager := { m with stack := m.stack.dropLast }
          match m2.get_current_id with
          | none => none
          | some nid =>
            match m2.mut_scene_node nid with
            | none => none
            | some nxt => runUpdateDraw m2 nxt
        else
          some (Except.error "exit failed")
      | some (SceneRequest.Push id) =>
        let m2 : SceneManager := { m with stack := m.stack ++ [id] }
        match m2.mut_scene_node id with
        | none => none
        | some nxt =>
          if nxt.enterOk then runUpdateDraw m2 nxt
          else some (Except.error "enter failed")
      | some (SceneRequest.Change id) =>
        if curr.exitOk then
          let m2 : SceneManager := { m with stack := m.stack.dropLast ++ [id] }
          match m2.mut_scene_node id with
          | none => none
          | some nxt =>
            if nxt.enterOk then runUpdateDraw m2 nxt
            else some (Except.error "enter failed")
        else
          some (Except.error "exit failed")

end SceneManager

/-- A registry with a single scene 0 that always requests Push of the
unregistered id 1, all hooks succeeding. -/
def c8Nodes : List (Nat × SceneNode) :=
  [(0, { request := some (SceneRequest.Push 1), enterOk := true, exitOk := true, updateOk := true, drawOk := true })]

/-- The manager SceneManager::new builds over c8Nodes. -/
def c8Manager : SceneManager := { stack := [0], nodes := c8Nodes }

/-- Counterexample to C8: construction over c8Nodes succeeds even though
scene 0 requests a transition to the unregistered id 1, and the first
frame_advanced call hits the mut_scene_node panic at transition time. -/
theorem claim_C8_counterexample :
    SceneManager.new c8Nodes 0 = some (Except.ok c8Manager)
    ∧ c8Manager.frame_advanced = none := by
  exact ⟨rfl, rfl⟩

/-- C8 as amended: construction checks exactly the entry-point id (the
constructor panics precisely when the entry point is unregistered); a Push
or Change request naming an unregistered id is detected only at transition
time, where frame_advanced hits the mut_scene_node panic. -/
theorem claim_C8_unregistered_id_detection :
    (∀ (nodes : List (Nat × SceneNode)) (entry_point : Nat),
      SceneManager.new nodes entry_point = none ↔ mapLookup nodes entry_point = none)
    ∧ (∀ (m : SceneManager) (cid : Nat) (curr : SceneNode) (id : Nat),
      m.stack.getLast? = some cid → mapLookup m.nodes cid = some curr →
      curr.request = some (SceneRequest.Push id) → mapLookup m.nodes id = none →
      m.frame_advanced = none)
    ∧ (∀ (m : SceneManager) (cid : Nat) (curr : SceneNode) (id : Nat),
      m.stack.getLast? = some cid → mapLookup m.nodes cid = some curr →
      curr.request = some (SceneRequest.Change id) → curr.exitOk = true →
      mapLookup m.nodes id = none → m.frame_advanced = none) := by
  refine ⟨?_, ?_, ?_⟩
  · intro nodes entry_point
    rw [SceneManager.new]
    cases h : mapLookup nodes entry_point with
    | none => simp
    | some node =>
      constructor
      · intro hc
        by_cases he : node.enterOk <;> simp [he] at hc
      · intro hc
        exact absurd hc (by simp)
  · intro m cid curr id h1 h2 h3 h4
    rw [SceneManager.frame_advanced, SceneManager.get_current_id, h1]
    simp only [SceneManager.mut_scene_node, h2, h3]
    simp [SceneManager.mut_scene_node, h4]
  · intro m cid curr id h1 h2 h3 hex h4
    rw [SceneManager.frame_advanced, SceneManager.get_current_id, h1]
    simp only [SceneManager.mut_scene_node, h2, h3, hex]
    simp [SceneManager.mut_scene_node, h4]

/-- Witness for C8 as amended: on c8Manager with the Push request to the
unregistered id 1, frame_advanced panics; and a registry lookup miss is
exactly a construction panic for the entry point 9. -/
theorem claim_C8_unregistered_id_detection_witness :
    (SceneManager.new c8Nodes 9 = none ↔ mapLookup c8Nodes 9 = none)
    ∧ c8Manager.frame_advanced = none :=
  ⟨claim_C8_unregistered_id_detection.1 c8Nodes 9,
   claim_C8_unregistered_id_detection.2.1 c8Manager 0 { request := some (SceneRequest.Push 1), enterOk := true, exitOk := true, updateOk := true, drawOk := true } 1 rfl rfl rfl rfl⟩

/-- Result of vulkano acquire_next_image as seen by
RenderSwapchain::acquire_next_image (renderer/swapchain.rs): an
out-of-date surface, an acquired image index with the suboptimal flag, or
any other error. -/
inductive AcquireResult where
  | outOfDate
  | acquired (image_index : Nat) (suboptimal : Bool)
  | failed (msg : String)
deriving DecidableEq, Repr

/-- Result of then_signal_fence_and_flush as matched by
RenderFrame::queue_submit_and_present (renderer/frame.rs). -/
inductive FlushResult where
  | ok
  | outOfDate
  | failed (msg : String)
deriving DecidableEq, Repr

/-- The in-flight GpuFuture token held in previous_frame_end: either the
immediately signaled now-future or the fence future of a submitted frame. -/
inductive GpuFuture where
  | now
  | fenceOf (frame : Nat)
deriving DecidableEq, Repr

/-- RenderSwapchain state (renderer/swapchain.rs): the current frame index
and a generation counter standing for the identity of the underlying
vulkan swapchain object. -/
structure RenderSwapchain where
  current_frame : Nat
  generation : Nat
deriving DecidableEq, Repr

/-- RenderSwapchain::recreate: rebuilds the swapchain (fresh generation,
current frame reset to 0) or fails; success of the vulkan call is the
environment bit. -/
def RenderSwapchain.recreate (sc : RenderSwapchain) (success : Bool) :
    Except String RenderSwapchain :=
  if success then
    Except.ok { current_frame := 0, generation := sc.generation + 1 }
  else
    Except.error "Swapchain recreation failed"

/-- RenderSwapchain::acquire_next_image: OutOfDate is absorbed into Ok
none, a fetched image records its index in current_frame, any other error
propagates. -/
def RenderSwapchain.acquire_next_image (sc : RenderSwapchain) (res : AcquireResult) :
    Except String (Option (Nat × Bool)) × RenderSwapchain :=
  match res with
  | AcquireResult.outOfDate => (Except.ok none, sc)
  | AcquireResult.acquired idx subopt =>
    (Except.ok (some (idx, subopt)), { sc with current_frame := idx })
  | AcquireResult.failed m =>
    (Except.error ("Failed to get swapchain next image: " ++ m), sc)

/-- RenderDepthStencil state (renderer/depth_stencil.rs), as a generation
counter for the underlying image. -/
structure RenderDepthStencil where
  generation : Nat
deriving DecidableEq, Repr

/-- RenderDepthStencil::recreate. -/
def RenderDepthStencil.recreate (ds : RenderDepthStencil) (success : Bool) :
    Except String RenderDepthStencil :=
  if success then
    Except.ok { generation := ds.generation + 1 }
  else
    Except.error "Depth stencil recreation failed"

/-- create_vulkan_framebuffers of renderer/frame.rs, as a generation bump
of the framebuffer set. -/
def create_vulkan_framebuffers (gen : Nat) (success : Bool) : Except String Nat :=
  if success then Except.ok (gen + 1) else Except.error "Framebuffer creation failed"

/-- RenderFrame state (renderer/frame.rs). -/
structure RenderFrame where
  recreate_swapchain : Bool
  swapchain : RenderSwapchain
  depth_stencil : RenderDepthStencil
  framebuffers : Nat
  previous_frame_end : Option GpuFuture
deriving DecidableEq, Repr

/-- Environment of one wait_for_next_frame call: whether each of the three
vulkan recreation calls would succeed and what acquire_next_image reports. -/
structure FrameEnv where
  swapchain_recreate_ok : Bool
  depth_recreate_ok : Bool
  framebuffer_ok : Bool
  acquire : AcquireResult
deriving DecidableEq, Repr

/-- Observable steps of wait_for_next_frame, recorded in call order. -/
inductive FrameAction where
  | cleanupFinished
  | recreateSwapchain
  | recreateDepthStencil
  | recreateFramebuffers
  | acquireImage
deriving DecidableEq, Repr

/-- The tail of RenderFrame::wait_for_next_frame after the recreation
block (renderer/frame.rs lines 133-139): acquire the next image; on Ok the
suboptimal flag becomes the new recreate_swapchain value and the current
framebuffer is returned with the image index; on absorbed OutOfDate the
call returns Ok none. -/
def RenderFrame.acquire_step (st : RenderFrame) (env : FrameEnv) (tr : List FrameAction) :
    Except String (Option (Nat × Nat)) × RenderFrame × List FrameAction :=
  match st.swapchain.acquire_next_image env.acquire with
  | (Except.error e, sc2) =>
    (Except.error e, { st with swapchain := sc2 }, tr ++ [FrameAction.acquireImage])
  | (Except.ok none, sc2) =>
    (Except.ok none, { st with swapchain := sc2 }, tr ++ [FrameAction.acquireImage])
  | (Except.ok (some (idx, subopt)), sc2) =>
    (Except.ok (some (idx, st.framebuffers)),
      { st with swapchain := sc2, recreate_swapchain := subopt },
      tr ++ [FrameAction.acquireImage])

/-- RenderFrame::wait_for_next_frame (renderer/frame.rs lines 103-140):
clean up the previous frame bookkeeping, then, if the swapchain is marked
for recreation, recreate the swapchain, the depth-stencil and the
framebuffers exactly once each and clear the mark, and finally acquire the
next image. -/
def RenderFrame.wait_for_next_frame (st : RenderFrame) (env : FrameEnv) :
    Except String (Option (Nat × Nat)) × RenderFrame × List FrameAction :=
  let tr : List FrameAction := [FrameAction.cleanupFinished]
  if st.recreate_swapchain then
    match st.swapchain.recreate env.swapchain_recreate_ok with
    | Except.error e => (Except.error e, st, tr ++ [FrameAction.recreateSwapchain])
    | Except.ok sc2 =>
      match st.depth_stencil.recreate env.depth_recreate_ok with
      | Except.error e =>
        (Except.error e, { st with swapchain := sc2 },
          tr ++ [FrameAction.recreateSwapchain, FrameAction.recreateDepthStencil])
      | Except.ok ds2 =>
        match create_vulkan_framebuffers st.framebuffers env.framebuffer_ok with
        | Except.error e =>
          (Except.error e, { st with swapchain := sc2, depth_stencil := ds2 },
            tr ++ [FrameAction.recreateSwapchain, FrameAction.recreateDepthStencil,
              FrameAction.recreateFramebuffers])
        | Except.ok fb2 =>
          RenderFrame.acquire_step { st with swapchain := sc2, depth_stencil := ds2, framebuffers := fb2, recreate_swapchain := false } env (tr ++ [FrameAction.recreateSwapchain, FrameAction.recreateDepthStencil, FrameAction.recreateFramebuffers])
  else
    RenderFrame.acquire_step st env tr

/-- RenderFrame::queue_submit_and_present (renderer/frame.rs lines
148-187): take the in-flight token (panicking if absent), execute and
flush; on success the new token is the signalled fence, on OutOfDate the
call still returns Ok, marks the swapchain for recreation and installs the
immediately signaled now-future as the new token; other errors propagate. -/
def RenderFrame.queue_submit_and_present (st : RenderFrame) (execute_ok : Bool)
    (flush : FlushResult) : Option (Except String Unit × RenderFrame) :=
  match st.previous_frame_end with
  | none => none
  | some _f =>
    if execute_ok then
      match flush with
      | FlushResult.ok =>
        some (Except.ok (),
          { st with previous_frame_end := some (GpuFuture.fenceOf st.swapchain.current_frame) })
      | FlushResult.outOfDate =>
        some (Except.ok (),
          { st with recreate_swapchain := true, previous_frame_end := some GpuFuture.now })
      | FlushResult.failed e =>
        some (Except.error ("Presentation failed: " ++ e), { st with previous_frame_end := none })
    else
      some (Except.error "Command buffer execution failed", { st with previous_frame_end := none })

/-- C4: presentation staleness is never surfaced as an error.  Acquire
out-of-date yields a successful skip-frame outcome whether or not a
recreation ran first; present out-of-date yields Ok, marks the swapchain
for recreation and installs the immediately signaled token; and the next
wait_for_next_frame with the mark set performs exactly one recreation of
swapchain, depth-stencil and framebuffers, in that order and before
acquiring, and clears the mark. -/
theorem claim_C4_staleness_never_error (st : RenderFrame) (env : FrameEnv)
    (f : GpuFuture) (idx : Nat) :
    (st.recreate_swapchain = false → env.acquire = AcquireResult.outOfDate →
      (st.wait_for_next_frame env).1 = Except.ok none
      ∧ (st.wait_for_next_frame env).2.2
          = [FrameAction.cleanupFinished, FrameAction.acquireImage])
    ∧ (st.recreate_swapchain = true → env.swapchain_recreate_ok = true →
      env.depth_recreate_ok = true → env.framebuffer_ok = true →
      env.acquire = AcquireResult.outOfDate →
      (st.wait_for_next_frame env).1 = Except.ok none)
    ∧ (st.previous_frame_end = some f →
      st.queue_submit_and_present true FlushResult.outOfDate
        = some (Except.ok (),
          { st with recreate_swapchain := true, previous_frame_end := some GpuFuture.now }))
    ∧ (st.recreate_swapchain = true → env.swapchain_recreate_ok = true →
      env.depth_recreate_ok = true → env.framebuffer_ok = true →
      (st.wait_for_next_frame env).2.2
        = [FrameAction.cleanupFinished, FrameAction.recreateSwapchain,
          FrameAction.recreateDepthStencil, FrameAction.recreateFramebuffers,
          FrameAction.acquireImage])
    ∧ (st.recreate_swapchain = true → env.swapchain_recreate_ok = true →
      env.depth_recreate_ok = true → env.framebuffer_ok = true →
      env.acquire = AcquireResult.acquired idx false →
      (st.wait_for_next_frame env).2.1.recreate_swapchain = false) := by
  refine ⟨?_, ?_, ?_, ?_, ?_⟩
  · intro hrc hacq
    rw [RenderFrame.wait_for_next_frame]
    simp [hrc, RenderFrame.acquire_step, RenderSwapchain.acquire_next_image, hacq]
  · intro hrc hsc hds hfb hacq
    rw [RenderFrame.wait_for_next_frame]
    simp [hrc, hsc, hds, hfb, RenderSwapchain.recreate, RenderDepthStencil.recreate,
      create_vulkan_framebuffers, RenderFrame.acquire_step,
      RenderSwapchain.acquire_next_image, hacq]
  · intro hf
    rw [RenderFrame.queue_submit_and_present, hf]
    rfl
  · intro hrc hsc hds hfb
    rw [RenderFrame.wait_for_next_frame]
    simp only [hrc, hsc, hds, hfb, RenderSwapchain.recreate, RenderDepthStencil.recreate,
      create_vulkan_framebuffers, if_true]
    cases hacq : env.acquire <;>
      simp [RenderFrame.acquire_step, RenderSwapchain.acquire_next_image, hacq]
  · intro hrc hsc hds hfb hacq
    rw [RenderFrame.wait_for_next_frame]
    simp [hrc, hsc, hds, hfb, RenderSwapchain.recreate, RenderDepthStencil.recreate,
      create_vulkan_framebuffers, RenderFrame.acquire_step,
      RenderSwapchain.acquire_next_image, hacq]

/-- A concrete frame state with the recreation mark set and a pending
now-token. -/
def c4State : RenderFrame :=
  { recreate_swapchain := true, swapchain := { current_frame := 0, generation := 0 },
    depth_stencil := { generation := 0 }, framebuffers := 0,
    previous_frame_end := some GpuFuture.now }

/-- A concrete environment where every recreation succeeds and acquisition
reports out-of-date. -/
def c4Env : FrameEnv :=
  { swapchain_recreate_ok := true, depth_recreate_ok := true, framebuffer_ok := true,
    acquire := AcquireResult.outOfDate }

/-- Witness for C4: the staleness-handling conjuncts discharged on a
concrete state and environment. -/
theorem claim_C4_staleness_never_error_witness :
    (c4State.wait_for_next_frame c4Env).1 = Except.ok none
    ∧ c4State.queue_submit_and_present true FlushResult.outOfDate
        = some (Except.ok (),
          { c4State with recreate_swapchain := true, previous_frame_end := some GpuFuture.now })
    ∧ (c4State.wait_for_next_frame c4Env).2.2
        = [FrameAction.cleanupFinished, FrameAction.recreateSwapchain,
          FrameAction.recreateDepthStencil, FrameAction.recreateFramebuffers,
          FrameAction.acquireImage] :=
  ⟨(claim_C4_staleness_never_error c4State c4Env GpuFuture.now 0).2.1 rfl rfl rfl rfl rfl,
   (claim_C4_staleness_never_error c4State c4Env GpuFuture.now 0).2.2.1 rfl,
   (claim_C4_staleness_never_error c4State c4Env GpuFuture.now 0).2.2.2.1 rfl rfl rfl rfl⟩

end VkFramework
